import Mathlib

/-!
Shallow embedding of the telemetry simulation and real-time distribution
engine of the robotics-telemetry-dashboard repository.

The embedded code lives in the backend service files: the class
`TelemetrySimulator` (methods `simulateRobotUpdate`, `generateTelemetryUpdates`,
`triggerUpdate`, `start`, `stop`, `getCurrentStates`) and the class
`WebSocketService` (the `subscribe_robot` and `unsubscribe_robot` handlers,
`sendCurrentStates`, and the broadcast `io.emit` performed at the end of each
tick).

Modelling decisions, stated once here:

* JavaScript numbers are modelled as rationals (`ℚ`).  Every numeric claim
  settled below is robust to this choice: the operations involved are
  additions, subtractions, comparisons, clamps and roundings of values for
  which binary floating point and exact arithmetic agree on the claimed
  behaviour.
* `Math.random()` draws, the values of `Math.cos` and `Math.sin` at the
  current heading, and the clock readings `Date.now()` and `new Date()` are
  not computable inside the embedding; each call site is given its value by
  an explicit environment (`TickRand`, `RobotTickEnv`).  The simulator code
  itself is a pure function of the state and of those inputs.
* The database layer (`RobotService`) is an external collaborator; whether a
  given write throws is again an environment input.
* `Math.round x` is `⌊x + 1/2⌋` (ECMAScript rounds half toward positive
  infinity).  `x.toFixed n` followed by `parseFloat`, for the nonnegative
  values that occur here, is rounding to `n` decimal digits, half up.
* `a % n` on numbers is the remainder of truncated division.
-/

namespace Telemetry

/-- ECMAScript `Math.round`: round half toward positive infinity. -/
def jsRound (q : ℚ) : ℤ := ⌊q + 1/2⌋

/-- ECMAScript truncation toward zero (used by the `%` operator). -/
def jsTrunc (q : ℚ) : ℤ := if 0 ≤ q then ⌊q⌋ else ⌈q⌉

/-- ECMAScript `a % n`: remainder of truncated division. -/
def jsMod (a n : ℚ) : ℚ := a - n * (jsTrunc (a / n) : ℚ)

/-- `x.toFixed n` followed by `parseFloat`, for nonnegative `x`: round to
`n` decimal digits, half up. -/
def jsToFixed (n : ℕ) (q : ℚ) : ℚ := (⌊q * 10 ^ n + 1/2⌋ : ℚ) / 10 ^ n

/-- `Math.max(0, Math.min(100, q))`, the position clamp of the simulator. -/
def clamp01 (q : ℚ) : ℚ := max 0 (min 100 q)

/-- Operating mode of a robot.  The TypeScript union is declared on the
`status` field of the `Robot` interface in the shared types module (staged in
`src/backend/src/config/database.ts`, line 61) and has five values: active,
inactive, maintenance, charging, offline.  The simulator switch handles the
first four explicitly and sends the fifth, `inactive`, to its `default`
branch. -/
inductive RobotStatus : Type
  | active : RobotStatus
  | charging : RobotStatus
  | maintenance : RobotStatus
  | offline : RobotStatus
  | inactive : RobotStatus
deriving DecidableEq

/-- One entry of the in-memory registry `this.robots` of `TelemetrySimulator`:
the database row fields relevant to simulation together with the
simulation-only hidden fields merged in by `initialize` (heading `direction`,
`batteryDrainRate`, `temperatureBase`, `lastMaintenanceCheck`,
`chargingStartTime`). -/
structure RobotData : Type where
  robot_id : String
  location_x : ℚ
  location_y : ℚ
  battery_level : ℚ
  status : RobotStatus
  speed : ℚ
  temperature : ℚ
  direction : ℚ
  batteryDrainRate : ℚ
  temperatureBase : ℚ
  lastMaintenanceCheck : ℤ
  chargingStartTime : Option ℤ
deriving DecidableEq

/-- The per-entity output of one tick, the object literal returned by
`simulateRobotUpdate`. -/
structure TelemetryUpdate : Type where
  robot_id : String
  location_x : ℚ
  location_y : ℚ
  battery_level : ℤ
  status : RobotStatus
  speed : ℚ
  temperature : ℚ
  timestamp : ℤ
deriving DecidableEq

/-- The values produced by the nondeterministic calls inside one invocation of
`simulateRobotUpdate` for one robot: each `Math.random()` call site gets its
draw (a value in `[0,1)`), the `Math.cos`/`Math.sin` values at the current
heading are supplied as oracle values, and the clock readings are given
(`nowMs` for every `Date.now()` call, `nowTs` for the `new Date()`
timestamp). -/
structure TickRand : Type where
  dirChangeDraw : ℚ
  dirDeltaDraw : ℚ
  tempVarDraw : ℚ
  maintDraw : ℚ
  maintFinishDraw : ℚ
  offlineDraw : ℚ
  noiseDraw : ℚ
  cosDir : ℚ
  sinDir : ℚ
  nowMs : ℤ
  nowTs : ℤ
deriving DecidableEq

/-- The values of the local variables of `simulateRobotUpdate` at the end of
its `switch` on the robot status: `newX`, `newY`, `newBatteryLevel`,
`newStatus`, `speed`, `temperature`, together with the (possibly mutated)
`robotData` object. -/
structure SimCore : Type where
  newX : ℚ
  newY : ℚ
  newBatteryLevel : ℚ
  newStatus : RobotStatus
  speed : ℚ
  temperature : ℚ
  rdOut : RobotData
deriving DecidableEq

/-- The `switch (robotData.status)` of `TelemetrySimulator.simulateRobotUpdate`,
branch by branch in source order.  The `default` branch (reached by the
fifth status value, `inactive`) sets `newStatus = 'active'` and leaves every
local variable at its initial value: position, battery and speed are kept
and temperature stays at the resting baseline. -/
def simCore (env : TickRand) (rd : RobotData) : SimCore :=
  match rd.status with
  | RobotStatus.active =>
    let moveDistance := rd.speed * (1/10)
    let newX := clamp01 (rd.location_x + env.cosDir * moveDistance)
    let newY := clamp01 (rd.location_y + env.sinDir * moveDistance)
    let direction :=
      if env.dirChangeDraw < 1/10 then
        jsMod (rd.direction + (env.dirDeltaDraw - 1/2) * 60) 360
      else rd.direction
    let newBatteryLevel := max 0 (rd.battery_level - rd.batteryDrainRate)
    let temperature := rd.temperatureBase + (env.tempVarDraw * 2 - 1)
    let lowBattery := newBatteryLevel ≤ 15
    let status1 := if lowBattery then RobotStatus.charging else RobotStatus.active
    let cst1 := if lowBattery then some env.nowMs else rd.chargingStartTime
    let speed1 : ℚ := if lowBattery then 0 else rd.speed
    let maintCond :=
      env.maintDraw < 1/1000 ∧ env.nowMs - rd.lastMaintenanceCheck > 300000
    let status2 := if maintCond then RobotStatus.maintenance else status1
    let speed2 := if maintCond then 0 else speed1
    { newX := newX, newY := newY, newBatteryLevel := newBatteryLevel
      newStatus := status2, speed := speed2, temperature := temperature
      rdOut := { rd with direction := direction, chargingStartTime := cst1 } }
  | RobotStatus.charging =>
    let newBatteryLevel := min 100 (rd.battery_level + 1/2)
    let full := newBatteryLevel ≥ 95
    let status1 := if full then RobotStatus.active else RobotStatus.charging
    let cst1 := if full then none else rd.chargingStartTime
    { newX := rd.location_x, newY := rd.location_y
      newBatteryLevel := newBatteryLevel, newStatus := status1, speed := 0
      temperature := rd.temperatureBase
      rdOut := { rd with chargingStartTime := cst1 } }
  | RobotStatus.maintenance =>
    let finish := env.maintFinishDraw < 1/100
    let status1 := if finish then RobotStatus.active else RobotStatus.maintenance
    let lmc1 := if finish then env.nowMs else rd.lastMaintenanceCheck
    { newX := rd.location_x, newY := rd.location_y
      newBatteryLevel := rd.battery_level, newStatus := status1, speed := 0
      temperature := rd.temperatureBase
      rdOut := { rd with lastMaintenanceCheck := lmc1 } }
  | RobotStatus.offline =>
    let recov := env.offlineDraw < 1/200
    let status1 := if recov then RobotStatus.active else RobotStatus.offline
    let newBatteryLevel :=
      if recov then max rd.battery_level 50 else rd.battery_level
    { newX := rd.location_x, newY := rd.location_y
      newBatteryLevel := newBatteryLevel, newStatus := status1, speed := 0
      temperature := 20, rdOut := rd }
  | RobotStatus.inactive =>
    { newX := rd.location_x, newY := rd.location_y
      newBatteryLevel := rd.battery_level, newStatus := RobotStatus.active
      speed := rd.speed, temperature := rd.temperatureBase, rdOut := rd }

/-- `TelemetrySimulator.simulateRobotUpdate(robotId, robotData)`.

After the `switch` (`simCore`), random noise is added to the temperature and
the temperature is clamped to [15, 45]; the returned object literal rounds
position to 6 decimals, battery to the nearest integer, speed to 2 decimals
and temperature to 1 decimal, and stamps `new Date()`.  Returned alongside is
the robot record after the in-place mutations the method performs on
`robotData` (`direction`, `chargingStartTime`, `lastMaintenanceCheck`); the
merge of the update fields back into the registry is done by the caller and
modelled separately by `applyUpdate`. -/
def simulateRobotUpdate (robotId : String) (env : TickRand) (rd : RobotData) :
    TelemetryUpdate × RobotData :=
  let c := simCore env rd
  let temperature1 := c.temperature + (env.noiseDraw - 1/2) * (1/2)
  let temperature2 := max 15 (min 45 temperature1)
  ({ robot_id := robotId
     location_x := jsToFixed 6 c.newX
     location_y := jsToFixed 6 c.newY
     battery_level := jsRound c.newBatteryLevel
     status := c.newStatus
     speed := jsToFixed 2 c.speed
     temperature := jsToFixed 1 temperature2
     timestamp := env.nowTs }, c.rdOut)

/-- The registry write-back performed by `generateTelemetryUpdates` on
success: `this.robots.set(robotId, { ...robotData, location_x: ...,
location_y: ..., battery_level: ..., status: ..., speed: ...,
temperature: ... })`. -/
def applyUpdate (rd : RobotData) (u : TelemetryUpdate) : RobotData :=
  { rd with
    location_x := u.location_x
    location_y := u.location_y
    battery_level := (u.battery_level : ℚ)
    status := u.status
    speed := u.speed
    temperature := u.temperature }

/-- The nondeterministic inputs consumed while processing one robot inside one
tick of `generateTelemetryUpdates`: the random draws of
`simulateRobotUpdate`, and the behaviour of the three database calls
(`updateRobotTelemetry` may throw, `getRobotByRobotId` may return a row or
null, `saveTelemetryData` may throw). -/
structure RobotTickEnv : Type where
  rand : TickRand
  writeCurrentThrows : Bool
  robotFound : Bool
  historyThrows : Bool
deriving DecidableEq

/-- The mutable state of a `TelemetrySimulator` instance: the in-memory
registry (a JavaScript `Map`, modelled as an association list in insertion
order) and the `isRunning` flag. -/
structure SimState : Type where
  robots : List (String × RobotData)
  isRunning : Bool
deriving DecidableEq

/-- The body of the per-robot loop iteration of `generateTelemetryUpdates`.

The update is pushed onto the batch before any database call, so it is
returned unconditionally.  If `updateRobotTelemetry` throws, or the robot row
is found and `saveTelemetryData` throws, the `catch` logs and the registry
write-back `this.robots.set(...)` is skipped — but the in-place mutations
already performed by `simulateRobotUpdate` on the registry object remain. -/
def processRobot (env : String → RobotTickEnv) (p : String × RobotData) :
    TelemetryUpdate × (String × RobotData) :=
  let e := env p.1
  let r := simulateRobotUpdate p.1 e.rand p.2
  let throws := e.writeCurrentThrows || (e.robotFound && e.historyThrows)
  (r.1, (p.1, if throws then r.2 else applyUpdate r.2 r.1))

/-- `TelemetrySimulator.generateTelemetryUpdates`: one tick.  Iterates over
the registry entries in order, collects the batch of updates, and returns
the batch (which the method then broadcasts with
`io.emit('telemetry_update', updates)`) together with the new state. -/
def generateTelemetryUpdates (env : String → RobotTickEnv) (s : SimState) :
    List TelemetryUpdate × SimState :=
  let results := s.robots.map (processRobot env)
  (results.map Prod.fst, { s with robots := results.map Prod.snd })

/-- `TelemetrySimulator.start` (state effect only): sets `isRunning`; when
already running, the start command is ignored with a warning. -/
def start (s : SimState) : SimState :=
  if s.isRunning then s else { s with isRunning := true }

/-- `TelemetrySimulator.stop` (state effect only): clears the interval and the
`isRunning` flag. -/
def stop (s : SimState) : SimState := { s with isRunning := false }

/-- `TelemetrySimulator.triggerUpdate`: `if (this.isRunning) { await
this.generateTelemetryUpdates(); }`.  Returns `some batch` when a pass was
run (and broadcast) and `none` when nothing happened. -/
def triggerUpdate (env : String → RobotTickEnv) (s : SimState) :
    Option (List TelemetryUpdate) × SimState :=
  if s.isRunning then
    let r := generateTelemetryUpdates env s
    (some r.1, r.2)
  else (none, s)

/-- `TelemetrySimulator.getCurrentStates`: pushes
`{ robot_id: robotId, ...robotData }` for every registry entry.  The spread
comes last, so the `robot_id` field of the registry record (equal to the map
key, both set from `robot.robot_id` in `initialize`) wins; each snapshot
entry is the full registry record, hidden simulation fields included. -/
def getCurrentStates (s : SimState) : List RobotData :=
  s.robots.map (fun p => p.2)

/-- A run of `n` ticks: `envs k` supplies the nondeterministic inputs of tick
`k`.  Returns the sequence of emitted batches and the final state. -/
def runTicks : ℕ → (ℕ → String → RobotTickEnv) → SimState →
    List (List TelemetryUpdate) × SimState
  | 0, _, s => ([], s)
  | n + 1, envs, s =>
    let r := generateTelemetryUpdates (envs 0) s
    let rest := runTicks n (fun k => envs (k + 1)) r.2
    (r.1 :: rest.1, rest.2)

/-! ## The Distribution Hub (`WebSocketService`) -/

/-- A live connection: its socket id and the socket.io rooms it has joined. -/
structure Conn : Type where
  connId : String
  rooms : List String
deriving DecidableEq

/-- The `subscribe_robot` handler: when the requested id is a nonempty string
after trimming, the socket joins the room `robot_<id>`; otherwise an error is
sent back and nothing is joined. -/
def subscribeRobot (robotId : String) (c : Conn) : Conn :=
  if robotId.trim ≠ "" then
    { c with rooms := c.rooms.insert ("robot_" ++ robotId) }
  else c

/-- The `unsubscribe_robot` handler: when the requested id is a nonempty
string after trimming, the socket leaves the room `robot_<id>`. -/
def unsubscribeRobot (robotId : String) (c : Conn) : Conn :=
  if robotId.trim ≠ "" then
    { c with rooms := c.rooms.erase ("robot_" ++ robotId) }
  else c

/-- One message delivered to one connection. -/
structure Delivery : Type where
  connId : String
  event : String
  payload : List TelemetryUpdate
deriving DecidableEq

/-- The broadcast at the end of each tick:
`this.io.emit('telemetry_update', updates)` sends the whole batch to every
connected socket.  No room-targeted emit occurs anywhere in the tick path;
the `robot_<id>` rooms are never used for delivery. -/
def broadcastUpdates (clients : List Conn) (updates : List TelemetryUpdate) :
    List Delivery :=
  clients.map (fun c =>
    { connId := c.connId, event := "telemetry_update", payload := updates })

/-- One tick as seen by the connected clients: generate the batch, then
broadcast it. -/
def tickBroadcast (clients : List Conn) (env : String → RobotTickEnv)
    (s : SimState) : List Delivery × SimState :=
  let r := generateTelemetryUpdates env s
  (broadcastUpdates clients r.1, r.2)

/-- A connection (by socket id) receives update `u` in the delivery list
`ds` when some message addressed to it contains `u`. -/
def receivesUpdate (ds : List Delivery) (cid : String) (u : TelemetryUpdate) :
    Prop :=
  ∃ d ∈ ds, d.connId = cid ∧ u ∈ d.payload

/-- `WebSocketService.sendCurrentStates`: emits the `current_states` event
with `getCurrentStates()` as payload (on admission and on request). -/
def sendCurrentStates (s : SimState) : String × List RobotData :=
  ("current_states", getCurrentStates s)

/-- The state-machine legality relation of claim C8, exactly as the claim
states it: moves from Active, Charging, Maintenance and Offline only.  The
claim lists no move out of the fifth status value, `inactive`, and says no
other jump ever occurs, so from `inactive` nothing is permitted. -/
def allowedTransition (a b : RobotStatus) : Prop :=
  match a with
  | RobotStatus.active =>
    b = RobotStatus.active ∨ b = RobotStatus.charging ∨ b = RobotStatus.maintenance
  | RobotStatus.charging => b = RobotStatus.charging ∨ b = RobotStatus.active
  | RobotStatus.maintenance => b = RobotStatus.maintenance ∨ b = RobotStatus.active
  | RobotStatus.offline => b = RobotStatus.offline ∨ b = RobotStatus.active
  | RobotStatus.inactive => False

/-- The transition relation the code actually implements: the four-mode
machine of the spec extended with the `default` branch of the switch, which
sends `inactive` (and only it, given the five-value union) to Active. -/
def allowedTransitionWithDefault (a b : RobotStatus) : Prop :=
  match a with
  | RobotStatus.inactive => b = RobotStatus.active
  | _ => allowedTransition a b

/-! ## Helper lemmas -/

lemma simulateRobotUpdate_fst (robotId : String) (env : TickRand)
    (rd : RobotData) :
    (simulateRobotUpdate robotId env rd).1 =
      { robot_id := robotId
        location_x := jsToFixed 6 (simCore env rd).newX
        location_y := jsToFixed 6 (simCore env rd).newY
        battery_level := jsRound (simCore env rd).newBatteryLevel
        status := (simCore env rd).newStatus
        speed := jsToFixed 2 (simCore env rd).speed
        temperature := jsToFixed 1 (max 15 (min 45
          ((simCore env rd).temperature + (env.noiseDraw - 1/2) * (1/2))))
        timestamp := env.nowTs } := rfl

lemma simulateRobotUpdate_snd (robotId : String) (env : TickRand)
    (rd : RobotData) :
    (simulateRobotUpdate robotId env rd).2 = (simCore env rd).rdOut := rfl

lemma jsRound_intCast (z : ℤ) : jsRound (z : ℚ) = z := by
  unfold jsRound
  rw [Int.floor_eq_iff]
  constructor
  · linarith
  · linarith

lemma jsRound_nonneg {q : ℚ} (h : 0 ≤ q) : 0 ≤ jsRound q := by
  unfold jsRound
  exact Int.floor_nonneg.mpr (by linarith)

lemma jsRound_le {q : ℚ} {B : ℤ} (h : q ≤ (B : ℚ)) : jsRound q ≤ B := by
  unfold jsRound
  have h2 : ⌊q + 1/2⌋ < B + 1 := by
    apply Int.floor_lt.mpr
    push_cast
    linarith
  omega

lemma jsRound_int_sub {b : ℤ} {d : ℚ} (h1 : -(1/2) < d) (h2 : d ≤ 1/2) :
    jsRound ((b : ℚ) - d) = b := by
  unfold jsRound
  rw [Int.floor_eq_iff]
  constructor
  · linarith
  · linarith

lemma jsToFixed_nonneg {n : ℕ} {q : ℚ} (h : 0 ≤ q) : 0 ≤ jsToFixed n q := by
  unfold jsToFixed
  apply div_nonneg
  · have h0 : (0 : ℚ) ≤ q * 10 ^ n + 1/2 := by
      have := mul_nonneg h (by positivity : (0:ℚ) ≤ 10 ^ n)
      linarith
    exact_mod_cast Int.floor_nonneg.mpr h0
  · positivity

lemma jsToFixed_le_100 {n : ℕ} {q : ℚ} (h : q ≤ 100) : jsToFixed n q ≤ 100 := by
  unfold jsToFixed
  rw [div_le_iff₀ (by positivity : (0:ℚ) < 10 ^ n)]
  have h1 : q * 10 ^ n ≤ 100 * 10 ^ n :=
    mul_le_mul_of_nonneg_right h (by positivity)
  have h2 : ⌊q * 10 ^ n + 1/2⌋ < (100 * 10 ^ n : ℤ) + 1 := by
    apply Int.floor_lt.mpr
    push_cast
    linarith
  have h3 : ⌊q * 10 ^ n + 1/2⌋ ≤ (100 * 10 ^ n : ℤ) := by omega
  calc ((⌊q * 10 ^ n + 1/2⌋ : ℤ) : ℚ) ≤ ((100 * 10 ^ n : ℤ) : ℚ) := by
        exact_mod_cast h3
    _ = 100 * 10 ^ n := by push_cast; ring

lemma clamp01_nonneg (q : ℚ) : 0 ≤ clamp01 q := le_max_left 0 _

lemma clamp01_le_100 (q : ℚ) : clamp01 q ≤ 100 :=
  max_le (by norm_num) (min_le_left _ _)

lemma processRobot_key (env : String → RobotTickEnv) (p : String × RobotData) :
    (processRobot env p).2.1 = p.1 := rfl

lemma generateTelemetryUpdates_keys (env : String → RobotTickEnv)
    (s : SimState) :
    ((generateTelemetryUpdates env s).2).robots.map Prod.fst =
      s.robots.map Prod.fst := by
  unfold generateTelemetryUpdates
  simp only [List.map_map]
  exact List.map_congr_left (fun p _ => rfl)

lemma generateTelemetryUpdates_batch_ids (env : String → RobotTickEnv)
    (s : SimState) :
    ((generateTelemetryUpdates env s).1).map TelemetryUpdate.robot_id =
      s.robots.map Prod.fst := by
  unfold generateTelemetryUpdates
  simp only [List.map_map]
  exact List.map_congr_left (fun p _ => rfl)

lemma simCore_active (env : TickRand) (rd : RobotData)
    (hst : rd.status = RobotStatus.active) :
    simCore env rd =
      { newX := clamp01 (rd.location_x + env.cosDir * (rd.speed * (1/10)))
        newY := clamp01 (rd.location_y + env.sinDir * (rd.speed * (1/10)))
        newBatteryLevel := max 0 (rd.battery_level - rd.batteryDrainRate)
        newStatus :=
          if env.maintDraw < 1/1000 ∧ env.nowMs - rd.lastMaintenanceCheck > 300000
          then RobotStatus.maintenance
          else if max 0 (rd.battery_level - rd.batteryDrainRate) ≤ 15
               then RobotStatus.charging else RobotStatus.active
        speed :=
          if env.maintDraw < 1/1000 ∧ env.nowMs - rd.lastMaintenanceCheck > 300000
          then 0
          else if max 0 (rd.battery_level - rd.batteryDrainRate) ≤ 15
               then 0 else rd.speed
        temperature := rd.temperatureBase + (env.tempVarDraw * 2 - 1)
        rdOut := { rd with
          direction :=
            if env.dirChangeDraw < 1/10 then
              jsMod (rd.direction + (env.dirDeltaDraw - 1/2) * 60) 360
            else rd.direction
          chargingStartTime :=
            if max 0 (rd.battery_level - rd.batteryDrainRate) ≤ 15
            then some env.nowMs else rd.chargingStartTime } } := by
  simp only [simCore, hst]

lemma simCore_charging (env : TickRand) (rd : RobotData)
    (hst : rd.status = RobotStatus.charging) :
    simCore env rd =
      { newX := rd.location_x
        newY := rd.location_y
        newBatteryLevel := min 100 (rd.battery_level + 1/2)
        newStatus :=
          if min 100 (rd.battery_level + 1/2) ≥ 95
          then RobotStatus.active else RobotStatus.charging
        speed := 0
        temperature := rd.temperatureBase
        rdOut := { rd with chargingStartTime :=
                     if min 100 (rd.battery_level + 1/2) ≥ 95
                     then none else rd.chargingStartTime } } := by
  simp only [simCore, hst]

lemma simCore_maintenance (env : TickRand) (rd : RobotData)
    (hst : rd.status = RobotStatus.maintenance) :
    simCore env rd =
      { newX := rd.location_x
        newY := rd.location_y
        newBatteryLevel := rd.battery_level
        newStatus :=
          if env.maintFinishDraw < 1/100
          then RobotStatus.active else RobotStatus.maintenance
        speed := 0
        temperature := rd.temperatureBase
        rdOut := { rd with lastMaintenanceCheck :=
                     if env.maintFinishDraw < 1/100
                     then env.nowMs else rd.lastMaintenanceCheck } } := by
  simp only [simCore, hst]

lemma simCore_offline (env : TickRand) (rd : RobotData)
    (hst : rd.status = RobotStatus.offline) :
    simCore env rd =
      { newX := rd.location_x
        newY := rd.location_y
        newBatteryLevel :=
          if env.offlineDraw < 1/200
          then max rd.battery_level 50 else rd.battery_level
        newStatus :=
          if env.offlineDraw < 1/200
          then RobotStatus.active else RobotStatus.offline
        speed := 0
        temperature := 20
        rdOut := rd } := by
  simp only [simCore, hst]

lemma simCore_inactive (env : TickRand) (rd : RobotData)
    (hst : rd.status = RobotStatus.inactive) :
    simCore env rd =
      { newX := rd.location_x
        newY := rd.location_y
        newBatteryLevel := rd.battery_level
        newStatus := RobotStatus.active
        speed := rd.speed
        temperature := rd.temperatureBase
        rdOut := rd } := by
  simp only [simCore, hst]

lemma simCore_battery_bounds (env : TickRand) (rd : RobotData)
    (hb0 : 0 ≤ rd.battery_level) (hb1 : rd.battery_level ≤ 100)
    (hd : 0 ≤ rd.batteryDrainRate) :
    0 ≤ (simCore env rd).newBatteryLevel ∧
      (simCore env rd).newBatteryLevel ≤ 100 := by
  cases hst : rd.status
  · rw [simCore_active env rd hst]
    exact ⟨le_max_left _ _, max_le (by norm_num) (by linarith)⟩
  · rw [simCore_charging env rd hst]
    exact ⟨le_min (by norm_num) (by linarith), min_le_left _ _⟩
  · rw [simCore_maintenance env rd hst]
    exact ⟨hb0, hb1⟩
  · rw [simCore_offline env rd hst]
    dsimp only
    split_ifs
    · exact ⟨le_max_of_le_left hb0, max_le hb1 (by norm_num)⟩
    · exact ⟨hb0, hb1⟩
  · rw [simCore_inactive env rd hst]
    exact ⟨hb0, hb1⟩

lemma simCore_position_bounds (env : TickRand) (rd : RobotData)
    (hx0 : 0 ≤ rd.location_x) (hx1 : rd.location_x ≤ 100)
    (hy0 : 0 ≤ rd.location_y) (hy1 : rd.location_y ≤ 100) :
    (0 ≤ (simCore env rd).newX ∧ (simCore env rd).newX ≤ 100) ∧
      (0 ≤ (simCore env rd).newY ∧ (simCore env rd).newY ≤ 100) := by
  cases hst : rd.status
  · rw [simCore_active env rd hst]
    exact ⟨⟨clamp01_nonneg _, clamp01_le_100 _⟩,
      ⟨clamp01_nonneg _, clamp01_le_100 _⟩⟩
  · rw [simCore_charging env rd hst]
    exact ⟨⟨hx0, hx1⟩, ⟨hy0, hy1⟩⟩
  · rw [simCore_maintenance env rd hst]
    exact ⟨⟨hx0, hx1⟩, ⟨hy0, hy1⟩⟩
  · rw [simCore_offline env rd hst]
    exact ⟨⟨hx0, hx1⟩, ⟨hy0, hy1⟩⟩
  · rw [simCore_inactive env rd hst]
    exact ⟨⟨hx0, hx1⟩, ⟨hy0, hy1⟩⟩

/-- Claim C4: for every tick and every entity whose position lies in [0,100]²
and whose battery level lies in [0,100] before the tick (with the nonnegative
drain rate the engine always assigns), the emitted position after the tick
lies within [0,100]² and the emitted battery level lies within [0,100], in
every mode. -/
theorem tick_preserves_bounds (robotId : String) (env : TickRand)
    (rd : RobotData)
    (hx0 : 0 ≤ rd.location_x) (hx1 : rd.location_x ≤ 100)
    (hy0 : 0 ≤ rd.location_y) (hy1 : rd.location_y ≤ 100)
    (hb0 : 0 ≤ rd.battery_level) (hb1 : rd.battery_level ≤ 100)
    (hd : 0 ≤ rd.batteryDrainRate) :
    0 ≤ (simulateRobotUpdate robotId env rd).1.location_x ∧
    (simulateRobotUpdate robotId env rd).1.location_x ≤ 100 ∧
    0 ≤ (simulateRobotUpdate robotId env rd).1.location_y ∧
    (simulateRobotUpdate robotId env rd).1.location_y ≤ 100 ∧
    0 ≤ (simulateRobotUpdate robotId env rd).1.battery_level ∧
    (simulateRobotUpdate robotId env rd).1.battery_level ≤ 100 := by
  have hp := simCore_position_bounds env rd hx0 hx1 hy0 hy1
  have hbb := simCore_battery_bounds env rd hb0 hb1 hd
  rw [simulateRobotUpdate_fst]
  dsimp only
  exact ⟨jsToFixed_nonneg hp.1.1, jsToFixed_le_100 hp.1.2,
    jsToFixed_nonneg hp.2.1, jsToFixed_le_100 hp.2.2,
    jsRound_nonneg hbb.1, jsRound_le (by exact_mod_cast hbb.2)⟩

/-- A fixed tick environment used by concrete instantiations below: every
random draw is 1/2, the heading cosine is 1 and sine is 0, and both clocks
read 1000. -/
def envW : TickRand :=
  { dirChangeDraw := 1/2, dirDeltaDraw := 1/2, tempVarDraw := 1/2
    maintDraw := 1/2, maintFinishDraw := 1/2, offlineDraw := 1/2
    noiseDraw := 1/2, cosDir := 1, sinDir := 0, nowMs := 1000, nowTs := 1000 }

/-- A concrete active robot used by concrete instantiations below. -/
def rdW4 : RobotData :=
  { robot_id := "R-1", location_x := 50, location_y := 50, battery_level := 80
    status := RobotStatus.active, speed := 2, temperature := 25, direction := 0
    batteryDrainRate := 1/10, temperatureBase := 22, lastMaintenanceCheck := 0
    chargingStartTime := none }

/-- Witness for C4 at a concrete active robot. -/
theorem tick_preserves_bounds_witness :
    0 ≤ (simulateRobotUpdate "R-1" envW rdW4).1.location_x ∧
    (simulateRobotUpdate "R-1" envW rdW4).1.location_x ≤ 100 ∧
    0 ≤ (simulateRobotUpdate "R-1" envW rdW4).1.location_y ∧
    (simulateRobotUpdate "R-1" envW rdW4).1.location_y ≤ 100 ∧
    0 ≤ (simulateRobotUpdate "R-1" envW rdW4).1.battery_level ∧
    (simulateRobotUpdate "R-1" envW rdW4).1.battery_level ≤ 100 :=
  tick_preserves_bounds "R-1" envW rdW4 (by norm_num [rdW4]) (by norm_num [rdW4])
    (by norm_num [rdW4]) (by norm_num [rdW4]) (by norm_num [rdW4])
    (by norm_num [rdW4]) (by norm_num [rdW4])

/-- Claim C8 (amended): every mode transition performed by one tick is one
of the moves of the state machine extended with the default branch of the
switch: Active to Active, Charging or Maintenance; Charging to Charging or
Active; Maintenance to Maintenance or Active; Offline to Offline or Active;
and Inactive (the fifth value of the status union, handled by the default
branch) to Active.  No other jump occurs. -/
theorem tick_transition_allowed (robotId : String) (env : TickRand)
    (rd : RobotData) :
    allowedTransitionWithDefault rd.status
      (simulateRobotUpdate robotId env rd).1.status := by
  rw [simulateRobotUpdate_fst]
  dsimp only
  cases hst : rd.status
  · rw [simCore_active env rd hst]
    dsimp only [allowedTransitionWithDefault, allowedTransition]
    split_ifs <;> simp
  · rw [simCore_charging env rd hst]
    dsimp only [allowedTransitionWithDefault, allowedTransition]
    split_ifs <;> simp
  · rw [simCore_maintenance env rd hst]
    dsimp only [allowedTransitionWithDefault, allowedTransition]
    split_ifs <;> simp
  · rw [simCore_offline env rd hst]
    dsimp only [allowedTransitionWithDefault, allowedTransition]
    split_ifs <;> simp
  · rw [simCore_inactive env rd hst]
    dsimp only [allowedTransitionWithDefault]

lemma jsToFixed_zero (n : ℕ) : jsToFixed n 0 = 0 := by
  unfold jsToFixed
  have h0 : (0:ℚ) * 10 ^ n + 1/2 = 1/2 := by ring
  rw [h0]
  have h1 : ⌊(1:ℚ)/2⌋ = 0 := by
    rw [Int.floor_eq_iff]
    norm_num
  rw [h1]
  norm_num

/-- Claim C6: for an Active entity whose stored battery level is an integer
`b` in [1,100] and whose drain rate lies strictly between 0 and 1/2 (the
engine always draws it from [0.02, 0.12]), the emitted battery level is `b`
again, the value written back to the registry is `b`, and if `b` is at least
16 the drain alone never produces the battery-low transition to Charging. -/
theorem active_drain_rounds_away (robotId : String) (env : TickRand)
    (rd : RobotData) (b : ℤ)
    (hst : rd.status = RobotStatus.active)
    (hb : rd.battery_level = (b : ℚ))
    (h1 : 1 ≤ b) (_h2 : b ≤ 100)
    (hd0 : 0 < rd.batteryDrainRate) (hd5 : rd.batteryDrainRate < 1/2) :
    (simulateRobotUpdate robotId env rd).1.battery_level = b ∧
    (applyUpdate (simulateRobotUpdate robotId env rd).2
        (simulateRobotUpdate robotId env rd).1).battery_level = (b : ℚ) ∧
    (16 ≤ b → (simulateRobotUpdate robotId env rd).1.status ≠ RobotStatus.charging) := by
  have hb1 : (1:ℚ) ≤ (b:ℚ) := by exact_mod_cast h1
  have hmax : max 0 (rd.battery_level - rd.batteryDrainRate)
      = (b:ℚ) - rd.batteryDrainRate := by
    rw [hb]; exact max_eq_right (by linarith)
  have hbatt : (simulateRobotUpdate robotId env rd).1.battery_level = b := by
    rw [simulateRobotUpdate_fst]
    dsimp only
    rw [simCore_active env rd hst]
    dsimp only
    rw [hmax]
    exact jsRound_int_sub (by linarith) (by linarith)
  refine ⟨hbatt, ?_, ?_⟩
  · show ((simulateRobotUpdate robotId env rd).1.battery_level : ℚ) = (b:ℚ)
    exact_mod_cast hbatt
  · intro h16
    have h16q : (16:ℚ) ≤ (b:ℚ) := by exact_mod_cast h16
    have hlow : ¬ (max 0 (rd.battery_level - rd.batteryDrainRate) ≤ 15) := by
      rw [hmax]; push_neg; linarith
    rw [simulateRobotUpdate_fst]
    dsimp only
    rw [simCore_active env rd hst]
    dsimp only
    rw [if_neg hlow]
    split_ifs <;> simp

/-- A concrete active robot with integer battery 50 and drain rate 1/10. -/
def rdW6 : RobotData :=
  { robot_id := "R-1", location_x := 50, location_y := 50, battery_level := 50
    status := RobotStatus.active, speed := 2, temperature := 25, direction := 0
    batteryDrainRate := 1/10, temperatureBase := 22, lastMaintenanceCheck := 0
    chargingStartTime := none }

/-- Witness for C6 at a concrete active robot with battery 50. -/
theorem active_drain_rounds_away_witness :
    (simulateRobotUpdate "R-1" envW rdW6).1.battery_level = 50 ∧
    (applyUpdate (simulateRobotUpdate "R-1" envW rdW6).2
        (simulateRobotUpdate "R-1" envW rdW6).1).battery_level = ((50:ℤ) : ℚ) ∧
    (16 ≤ (50:ℤ) → (simulateRobotUpdate "R-1" envW rdW6).1.status ≠ RobotStatus.charging) :=
  active_drain_rounds_away "R-1" envW rdW6 50 rfl (by norm_num [rdW6])
    (by norm_num) (by norm_num) (by norm_num [rdW6]) (by norm_num [rdW6])

/-- Claim C5 (amended): for a Charging entity with battery level 94 the
charge step yields 94.5, the emitted battery level is 95 (`Math.round`
rounds 94.5 up, not down to 94), the entity remains Charging on this tick;
since the rounded value 95 is written back to the registry, the following
tick reaches 95.5 and transitions the entity to Active. -/
theorem charging_94_next_tick_active (robotId : String) (env env2 : TickRand)
    (rd : RobotData)
    (hst : rd.status = RobotStatus.charging)
    (hb : rd.battery_level = 94) :
    (simulateRobotUpdate robotId env rd).1.battery_level = 95 ∧
    (simulateRobotUpdate robotId env rd).1.status = RobotStatus.charging ∧
    (simulateRobotUpdate robotId env2
        (applyUpdate (simulateRobotUpdate robotId env rd).2
          (simulateRobotUpdate robotId env rd).1)).1.status = RobotStatus.active := by
  have hmin : min (100:ℚ) (94 + 1/2) = 94 + 1/2 := min_eq_right (by norm_num)
  have hfull : ¬ (min (100:ℚ) (94 + 1/2) ≥ 95) := by rw [hmin]; norm_num
  have hbatt : (simulateRobotUpdate robotId env rd).1.battery_level = 95 := by
    rw [simulateRobotUpdate_fst]
    dsimp only
    rw [simCore_charging env rd hst]
    dsimp only
    rw [hb, hmin]
    norm_num [jsRound, Int.floor_eq_iff]
  have hstat : (simulateRobotUpdate robotId env rd).1.status = RobotStatus.charging := by
    rw [simulateRobotUpdate_fst]
    dsimp only
    rw [simCore_charging env rd hst]
    dsimp only
    rw [hb]
    exact if_neg hfull
  refine ⟨hbatt, hstat, ?_⟩
  have hst1 : (applyUpdate (simulateRobotUpdate robotId env rd).2
      (simulateRobotUpdate robotId env rd).1).status = RobotStatus.charging := hstat
  have hb1 : (applyUpdate (simulateRobotUpdate robotId env rd).2
      (simulateRobotUpdate robotId env rd).1).battery_level = 95 := by
    show ((simulateRobotUpdate robotId env rd).1.battery_level : ℚ) = 95
    rw [hbatt]; norm_num
  rw [simulateRobotUpdate_fst]
  dsimp only
  rw [simCore_charging env2 _ hst1]
  dsimp only
  rw [hb1]
  exact if_pos (by norm_num)

/-- A concrete charging robot with battery level 94. -/
def rdC5 : RobotData :=
  { robot_id := "R-1", location_x := 10, location_y := 10, battery_level := 94
    status := RobotStatus.charging, speed := 0, temperature := 25, direction := 0
    batteryDrainRate := 1/20, temperatureBase := 25, lastMaintenanceCheck := 0
    chargingStartTime := some 5 }

/-- Counterexample to C5 as stated: for a Charging entity with battery 94 the
emitted battery level of the next tick is 95, not 94. -/
theorem charging_94_emits_95_not_94 :
    (simulateRobotUpdate "R-1" envW rdC5).1.battery_level = 95 ∧
    (simulateRobotUpdate "R-1" envW rdC5).1.battery_level ≠ 94 := by
  have hbatt : (simulateRobotUpdate "R-1" envW rdC5).1.battery_level = 95 := by
    rw [simulateRobotUpdate_fst]
    dsimp only
    rw [simCore_charging envW rdC5 rfl]
    dsimp only [rdC5]
    rw [min_eq_right (by norm_num : (94:ℚ) + 1/2 ≤ 100)]
    norm_num [jsRound, Int.floor_eq_iff]
  exact ⟨hbatt, by rw [hbatt]; decide⟩

/-- Witness for the amended C5 at the concrete charging robot `rdC5`. -/
theorem charging_94_next_tick_active_witness :
    (simulateRobotUpdate "R-1" envW rdC5).1.battery_level = 95 ∧
    (simulateRobotUpdate "R-1" envW rdC5).1.status = RobotStatus.charging ∧
    (simulateRobotUpdate "R-1" envW
        (applyUpdate (simulateRobotUpdate "R-1" envW rdC5).2
          (simulateRobotUpdate "R-1" envW rdC5).1)).1.status = RobotStatus.active :=
  charging_94_next_tick_active "R-1" envW envW rdC5 rfl rfl

/-- Claim C7: an Active entity with drain rate 0.05 and battery 16 stays
Active with emitted battery 16 after one tick (when the random maintenance
transition does not fire); with battery forced to 14, the next tick
transitions it to Charging with speed 0 and records the charging-started
timestamp. -/
theorem battery_16_stays_14_charges (robotId : String) (env : TickRand)
    (rd : RobotData)
    (hst : rd.status = RobotStatus.active)
    (hd : rd.batteryDrainRate = 1/20)
    (hm : ¬(env.maintDraw < 1/1000 ∧ env.nowMs - rd.lastMaintenanceCheck > 300000)) :
    (rd.battery_level = 16 →
      (simulateRobotUpdate robotId env rd).1.battery_level = 16 ∧
      (simulateRobotUpdate robotId env rd).1.status = RobotStatus.active) ∧
    (rd.battery_level = 14 →
      (simulateRobotUpdate robotId env rd).1.status = RobotStatus.charging ∧
      (simulateRobotUpdate robotId env rd).1.speed = 0 ∧
      (simulateRobotUpdate robotId env rd).2.chargingStartTime = some env.nowMs) := by
  constructor
  · intro hb
    have hmax : max (0:ℚ) (rd.battery_level - rd.batteryDrainRate) = 16 - 1/20 := by
      rw [hb, hd]; exact max_eq_right (by norm_num)
    have hlow : ¬ (max (0:ℚ) (rd.battery_level - rd.batteryDrainRate) ≤ 15) := by
      rw [hmax]; norm_num
    constructor
    · rw [simulateRobotUpdate_fst]
      dsimp only
      rw [simCore_active env rd hst]
      dsimp only
      rw [hmax]
      norm_num [jsRound, Int.floor_eq_iff]
    · rw [simulateRobotUpdate_fst]
      dsimp only
      rw [simCore_active env rd hst]
      dsimp only
      rw [if_neg hlow, if_neg hm]
  · intro hb
    have hlow : max (0:ℚ) (rd.battery_level - rd.batteryDrainRate) ≤ 15 := by
      rw [hb, hd]
      rw [max_eq_right (by norm_num : (0:ℚ) ≤ 14 - 1/20)]
      norm_num
    refine ⟨?_, ?_, ?_⟩
    · rw [simulateRobotUpdate_fst]
      dsimp only
      rw [simCore_active env rd hst]
      dsimp only
      rw [if_pos hlow, if_neg hm]
    · rw [simulateRobotUpdate_fst]
      dsimp only
      rw [simCore_active env rd hst]
      dsimp only
      rw [if_pos hlow, if_neg hm]
      exact jsToFixed_zero 2
    · rw [simulateRobotUpdate_snd]
      rw [simCore_active env rd hst]
      dsimp only
      rw [if_pos hlow]

/-- A concrete active robot with battery 16 and drain rate 1/20 whose
maintenance cooldown has not elapsed. -/
def rdC7 : RobotData :=
  { robot_id := "R-1", location_x := 10, location_y := 10, battery_level := 16
    status := RobotStatus.active, speed := 2, temperature := 25, direction := 0
    batteryDrainRate := 1/20, temperatureBase := 25
    lastMaintenanceCheck := 1000, chargingStartTime := none }

/-- Witness for C7 at the concrete robot `rdC7` (battery 16). -/
theorem battery_16_stays_14_charges_witness :
    (rdC7.battery_level = 16 →
      (simulateRobotUpdate "R-1" envW rdC7).1.battery_level = 16 ∧
      (simulateRobotUpdate "R-1" envW rdC7).1.status = RobotStatus.active) ∧
    (rdC7.battery_level = 14 →
      (simulateRobotUpdate "R-1" envW rdC7).1.status = RobotStatus.charging ∧
      (simulateRobotUpdate "R-1" envW rdC7).1.speed = 0 ∧
      (simulateRobotUpdate "R-1" envW rdC7).2.chargingStartTime = some envW.nowMs) :=
  battery_16_stays_14_charges "R-1" envW rdC7 rfl rfl
    (by rw [not_and]; intro h; norm_num [envW, rdC7])

/-! ## Concrete fixtures for counterexamples and witnesses -/

/-- A concrete offline robot with id R-1. -/
def rdA : RobotData :=
  { robot_id := "R-1", location_x := 10, location_y := 10, battery_level := 80
    status := RobotStatus.offline, speed := 0, temperature := 20, direction := 0
    batteryDrainRate := 1/20, temperatureBase := 25, lastMaintenanceCheck := 0
    chargingStartTime := none }

/-- A concrete offline robot with id R-2. -/
def rdB : RobotData :=
  { rdA with robot_id := "R-2", location_x := 20, location_y := 20
             battery_level := 70 }

/-- A running simulator whose registry holds R-1 and R-2, in that order. -/
def sC1 : SimState :=
  { robots := [("R-1", rdA), ("R-2", rdB)], isRunning := true }

/-- A concrete robot with the fifth status value, inactive. -/
def rdI : RobotData := { rdA with robot_id := "R-3", status := RobotStatus.inactive }

/-- Counterexample to C8 as stated: an entity whose stored status is
inactive is sent by the default branch of the switch straight to Active, a
jump the four-mode machine of the claim does not contain. -/
theorem inactive_jumps_to_active :
    (simulateRobotUpdate "R-3" envW rdI).1.status = RobotStatus.active ∧
    ¬ allowedTransition rdI.status
        ((simulateRobotUpdate "R-3" envW rdI).1.status) := by
  have h : (simulateRobotUpdate "R-3" envW rdI).1.status = RobotStatus.active := by
    rw [simulateRobotUpdate_fst]
    dsimp only
    rw [simCore_inactive envW rdI rfl]
  refine ⟨h, ?_⟩
  rw [h]
  show ¬ allowedTransition RobotStatus.inactive RobotStatus.active
  simp [allowedTransition]

/-- A tick environment where every database call succeeds. -/
def envOk : String → RobotTickEnv :=
  fun _ => { rand := envW, writeCurrentThrows := false, robotFound := true
             historyThrows := false }

/-- A connection that has joined exactly the room of robot R-1 (the state
produced by a successful `subscribe_robot` request for R-1 on a fresh
connection). -/
def connC1 : Conn := { connId := "c1", rooms := ["robot_R-1"] }

/-- Counterexample to C1 as stated: the connection subscribed only to the
topic of entity R-1 is delivered the full `telemetry_update` batch,
containing the Update Event of entity R-2 as well. -/
theorem r1_subscriber_receives_r2_event :
    connC1.rooms = ["robot_R-1"] ∧
    (tickBroadcast [connC1] envOk sC1).1.map
        (fun d => (d.connId, d.payload.map TelemetryUpdate.robot_id)) =
      [("c1", ["R-1", "R-2"])] :=
  ⟨rfl, rfl⟩

/-- Claim C1 (amended): on batch arrival the hub emits the entire batch as a
single message to every connected client, regardless of room subscriptions;
no per-entity message is emitted, so a connection subscribed only to entity
R-1 also receives the Update Events of every other entity. -/
theorem broadcast_reaches_every_client (clients : List Conn)
    (updates : List TelemetryUpdate) (c : Conn) (h : c ∈ clients) :
    ∃ d ∈ broadcastUpdates clients updates,
      d.connId = c.connId ∧ d.payload = updates :=
  ⟨{ connId := c.connId, event := "telemetry_update", payload := updates },
    List.mem_map_of_mem _ h, rfl, rfl⟩

/-- Witness for the amended C1 at a concrete client and batch. -/
theorem broadcast_reaches_every_client_witness :
    ∃ d ∈ broadcastUpdates [connC1] [],
      d.connId = connC1.connId ∧ d.payload = [] :=
  broadcast_reaches_every_client [connC1] [] connC1 (List.mem_singleton_self _)

/-- A tick environment where the current-state write of robot R-1 throws and
every other database call succeeds. -/
def envC2 : String → RobotTickEnv :=
  fun id => { rand := envW, writeCurrentThrows := id == "R-1"
              robotFound := true, historyThrows := false }

/-- Counterexample to C2 as stated: with the write for entity R-1 failing,
the emitted batch of the tick still contains the Update Event of R-1 (the
update is pushed onto the batch before the writes are attempted). -/
theorem failed_entity_still_in_batch :
    (envC2 "R-1").writeCurrentThrows = true ∧
    (generateTelemetryUpdates envC2 sC1).1.map TelemetryUpdate.robot_id =
      ["R-1", "R-2"] :=
  ⟨rfl, rfl⟩

/-- Claim C2 (amended): a write failure for one entity is logged and only
skips the registry write-back for that entity; the batch emitted for the
tick still contains one Update Event per registry entry, in registry order,
and the registry keys are unchanged — so processing of the remaining
entities continues, but the failing entity is not excluded from the
batch. -/
theorem persistence_failure_keeps_batch (env : String → RobotTickEnv)
    (s : SimState) :
    (generateTelemetryUpdates env s).1.map TelemetryUpdate.robot_id =
        s.robots.map Prod.fst ∧
      ((generateTelemetryUpdates env s).2).robots.map Prod.fst =
        s.robots.map Prod.fst :=
  ⟨generateTelemetryUpdates_batch_ids env s,
    generateTelemetryUpdates_keys env s⟩

/-- The simulator state after an administrative `stop`. -/
def sStopped : SimState := stop sC1

/-- Counterexample to C3 as stated: when the scheduler is not running,
`triggerUpdate` does not run a simulation pass — it emits nothing and leaves
the state unchanged. -/
theorem trigger_noop_when_stopped :
    sStopped.isRunning = false ∧
    triggerUpdate envOk sStopped = (none, sStopped) :=
  ⟨rfl, rfl⟩

/-- Claim C3 (amended): `triggerUpdate` runs exactly one simulation pass
immediately when the scheduler is running, and is a no-op when the scheduler
is stopped (the body is guarded by `if (this.isRunning)`). -/
theorem triggerUpdate_only_when_running (env : String → RobotTickEnv)
    (s : SimState) :
    (s.isRunning = true →
      triggerUpdate env s =
        (some (generateTelemetryUpdates env s).1,
          (generateTelemetryUpdates env s).2)) ∧
    (s.isRunning = false → triggerUpdate env s = (none, s)) := by
  constructor
  · intro h
    simp [triggerUpdate, h]
  · intro h
    simp [triggerUpdate, h]

/-- Witness for the amended C3 at a concrete running state. -/
theorem triggerUpdate_only_when_running_witness :
    triggerUpdate envOk sC1 =
      (some (generateTelemetryUpdates envOk sC1).1,
        (generateTelemetryUpdates envOk sC1).2) :=
  (triggerUpdate_only_when_running envOk sC1).1 rfl

/-- Claim C10: the `current_states` snapshot sent on admission and on
request contains, for every registry entry, the full internal simulation
record — including the hidden fields `direction`, `batteryDrainRate`,
`temperatureBase`, `lastMaintenanceCheck` and `chargingStartTime` — not a
projection to the public update fields. -/
theorem snapshot_exposes_hidden_fields (s : SimState) (p : String × RobotData)
    (h : p ∈ s.robots) :
    (sendCurrentStates s).1 = "current_states" ∧
    (sendCurrentStates s).2 = s.robots.map Prod.snd ∧
    ∃ e ∈ (sendCurrentStates s).2,
      e.robot_id = p.2.robot_id ∧ e.direction = p.2.direction ∧
      e.batteryDrainRate = p.2.batteryDrainRate ∧
      e.temperatureBase = p.2.temperatureBase ∧
      e.lastMaintenanceCheck = p.2.lastMaintenanceCheck ∧
      e.chargingStartTime = p.2.chargingStartTime :=
  ⟨rfl, rfl, p.2, List.mem_map_of_mem _ h, rfl, rfl, rfl, rfl, rfl, rfl⟩

/-- Witness for C10 at the concrete registry of `sC1` and entry R-1. -/
theorem snapshot_exposes_hidden_fields_witness :
    (sendCurrentStates sC1).1 = "current_states" ∧
    (sendCurrentStates sC1).2 = sC1.robots.map Prod.snd ∧
    ∃ e ∈ (sendCurrentStates sC1).2,
      e.robot_id = rdA.robot_id ∧ e.direction = rdA.direction ∧
      e.batteryDrainRate = rdA.batteryDrainRate ∧
      e.temperatureBase = rdA.temperatureBase ∧
      e.lastMaintenanceCheck = rdA.lastMaintenanceCheck ∧
      e.chargingStartTime = rdA.chargingStartTime :=
  snapshot_exposes_hidden_fields sC1 ("R-1", rdA) (by simp [sC1])

/-! ## Determinism (C9) -/

/-- The fixed all-succeed tick-environment stream used below. -/
def envC9a : ℕ → String → RobotTickEnv := fun _ _ =>
  { rand := envW, writeCurrentThrows := false, robotFound := true
    historyThrows := false }

/-- The same stream with a different `Math.random` draw at the offline
recovery call site. -/
def envW2 : TickRand := { envW with offlineDraw := 1/1000 }

/-- The all-succeed stream built on `envW2`. -/
def envC9b : ℕ → String → RobotTickEnv := fun _ _ =>
  { rand := envW2, writeCurrentThrows := false, robotFound := true
    historyThrows := false }

/-- A running simulator whose registry holds only the offline robot R-1. -/
def sC9 : SimState := { robots := [("R-1", rdA)], isRunning := true }

/-- Counterexample to C9 as stated: the engine has no random seed — its
draws come from unseeded `Math.random` — and two runs from the same initial
entity set whose draws differ produce different Update Event sequences, so
two independent runs are not byte-identical. -/
theorem unseeded_draws_change_output :
    (runTicks 1 envC9a sC9).1.map (List.map TelemetryUpdate.status) ≠
      (runTicks 1 envC9b sC9).1.map (List.map TelemetryUpdate.status) := by
  have ha : (runTicks 1 envC9a sC9).1.map (List.map TelemetryUpdate.status) =
      [[RobotStatus.offline]] := by
    show [[(simCore envW rdA).newStatus]] = [[RobotStatus.offline]]
    rw [simCore_offline envW rdA rfl]
    dsimp only [envW]
    rw [if_neg (by norm_num : ¬ ((1:ℚ)/2 < 1/200))]
  have hb : (runTicks 1 envC9b sC9).1.map (List.map TelemetryUpdate.status) =
      [[RobotStatus.active]] := by
    show [[(simCore envW2 rdA).newStatus]] = [[RobotStatus.active]]
    rw [simCore_offline envW2 rdA rfl]
    dsimp only [envW2, envW]
    rw [if_pos (by norm_num : ((1:ℚ)/1000 < 1/200))]
  rw [ha, hb]
  decide

/-- Claim C9 (amended): the tick function is a pure function of the registry
state and of the stream of random draws and clock readings: two runs of `n`
ticks from the same state, whose environment streams agree on every robot id
in the registry, produce identical batch sequences and final states.  The
code offers no way to fix a seed, so this is the strongest reproducibility
the engine has. -/
theorem run_deterministic_given_draws (n : ℕ)
    (envs1 envs2 : ℕ → String → RobotTickEnv) (s : SimState)
    (h : ∀ k, ∀ id ∈ s.robots.map Prod.fst, envs1 k id = envs2 k id) :
    runTicks n envs1 s = runTicks n envs2 s := by
  induction n generalizing envs1 envs2 s with
  | zero => rfl
  | succ n ih =>
    have hgen : generateTelemetryUpdates (envs1 0) s =
        generateTelemetryUpdates (envs2 0) s := by
      unfold generateTelemetryUpdates
      have hmap : s.robots.map (processRobot (envs1 0)) =
          s.robots.map (processRobot (envs2 0)) := by
        apply List.map_congr_left
        intro p hp
        unfold processRobot
        rw [h 0 p.1 (List.mem_map_of_mem Prod.fst hp)]
      rw [hmap]
    have hkeys := generateTelemetryUpdates_keys (envs2 0) s
    have h2 : ∀ k, ∀ id ∈ ((generateTelemetryUpdates (envs2 0) s).2).robots.map
        Prod.fst, envs1 (k + 1) id = envs2 (k + 1) id := by
      intro k id hid
      rw [hkeys] at hid
      exact h (k + 1) id hid
    simp only [runTicks]
    rw [hgen, ih (fun k => envs1 (k + 1)) (fun k => envs2 (k + 1)) _ h2]

/-- The stream `envC9a` perturbed only at the id "ghost", which is not in
the registry of `sC9`. -/
def envC9g : ℕ → String → RobotTickEnv := fun k id =>
  if id = "ghost"
  then { rand := envW2, writeCurrentThrows := true, robotFound := false
         historyThrows := true }
  else envC9a k id

/-- Witness for the amended C9: two distinct streams agreeing on the single
registry id R-1 give identical one-tick runs. -/
theorem run_deterministic_given_draws_witness :
    runTicks 1 envC9a sC9 = runTicks 1 envC9g sC9 :=
  run_deterministic_given_draws 1 envC9a envC9g sC9 (by
    intro k id hid
    have hid1 : id = "R-1" := by simpa [sC9] using hid
    subst hid1
    simp only [envC9a, envC9g]
    rw [if_neg (by decide : ¬ ("R-1" = "ghost"))])

end Telemetry
